import Mathlib

/-!
Shallow embedding of the walk-request lifecycle coordinator of
little-walk-backend (src/core/service.rs, src/core/repository.rs,
src/repositories/mongodb.rs).

Modelling conventions:
* `DateTime<Utc>` timestamps are modelled as `Nat` instants; every verb that
  stamps `Utc::now()` takes the instant as an explicit `now` parameter.
* `f64` values are modelled as `Rat`: no verified property depends on
  floating-point rounding.
* Mongo `ObjectId::from_str` on an id string is modelled as the identity on
  the untyped id string (hex-validity of ids is not claim-relevant).
* The stored walk-request document is modelled by `WalkRequest` below; the
  embedded `Dog` snapshots carry no lifecycle state, so only their ids are
  kept.  A stored document has no `status` field: status is derived on read
  by the projection (`deriveStatus`).  An absent `acceptances` array is
  modelled as `[]`.
* The persistence port executes each conditional update atomically; the
  sequential functions below are the per-document serialized semantics of
  `find_one_and_update` / `update_many`.  Before matching anything, the
  server parses the classic update document: every top-level operator
  subdocument must be non-empty (otherwise FailedToParse), and no field
  path may begin with a dollar sign.  A rejected update modifies nothing
  and the call returns the server error.  The coordinator builds update
  documents through `From<WalkRequestUpdate> for Document`, which emits
  all three of `$set` / `$unset` / `$pull` unconditionally, empty or not.
-/

namespace LittleWalk

/-- Scalars coming from Rust `f64` fields. -/
abbrev F64 := Rat

/-- Stored walk-request document (entities.rs `WalkRequest` plus the stored
`created_by` field written by `From<WalkRequestCreate> for Document`; the
derived `status` field is not stored). `dogs` keeps the ids of the embedded
dog snapshots. -/
structure WalkRequest where
  id : String
  dogs : List String := []
  should_start_after : Option Nat := none
  should_start_before : Option Nat := none
  should_end_after : Option Nat := none
  should_end_before : Option Nat := none
  latitude : F64 := 0
  longitude : F64 := 0
  distance : Option F64 := none
  canceled_at : Option Nat := none
  accepted_by : Option String := none
  accepted_at : Option Nat := none
  started_at : Option Nat := none
  finished_at : Option Nat := none
  acceptances : List String := []
  created_by : String := ""
  created_at : Option Nat := none
  updated_at : Option Nat := none
deriving DecidableEq, Repr

/-- repository.rs `WalkRequestQuery`. -/
structure WalkRequestQuery where
  id : Option String := none
  dog_ids_includes_all : Option (List String) := none
  dog_ids_includes_any : Option (List String) := none
  nearby : Option (List F64) := none
  accepted_by : Option String := none
  accepted_by_neq : Option String := none
  accepted_by_is_null : Option Bool := none
  acceptances_includes_all : Option (List String) := none
  acceptances_includes_any : Option (List String) := none
  created_by : Option String := none
deriving Repr

/-- repository.rs `WalkRequestUpdate`. -/
structure WalkRequestUpdate where
  dogs : Option (List String) := none
  should_start_after : Option Nat := none
  should_start_before : Option Nat := none
  should_end_before : Option Nat := none
  should_end_after : Option Nat := none
  latitude : Option F64 := none
  longitude : Option F64 := none
  accepted_by : Option String := none
  accepted_at : Option Nat := none
  canceled_at : Option Nat := none
  started_at : Option Nat := none
  finished_at : Option Nat := none
  unset_accepted_by : Bool := false
  unset_accepted_at : Bool := false
  add_to_acceptances : Option String := none
  remove_from_acceptances : Option String := none
deriving Repr

/-- repository.rs `Pagination` (both fields are `i64`). -/
structure Pagination where
  limit : Int
  skip : Int
deriving Repr

/-- repository.rs `Order`. -/
inductive Order where
  | Asc
  | Desc
deriving DecidableEq, Repr

/-- repository.rs `SortBy`. -/
structure SortBy where
  field : String
  order : Order
deriving Repr

/-- Server-side evaluation of the filter document built by
`TryFrom<WalkRequestQuery> for Document` (mongodb.rs), for the query shapes
the coordinator issues: at most one condition per document key and no
`nearby` clause (the `$geoNear` aggregation path is modelled separately).
`$ne` matches documents whose field differs from the value, including
documents where the field is absent.  For `accepted_by_is_null = some false`
the translation emits `$neq`, which is not a valid Mongo operator and which
no caller in the coordinator ever produces; it is modelled as the intended
complement of the null test. -/
def matchesQuery (q : WalkRequestQuery) (r : WalkRequest) : Bool :=
  (match q.id with | some i => r.id == i | none => true) &&
  (match q.dog_ids_includes_any with
    | some ids => r.dogs.any (fun d => ids.contains d) | none => true) &&
  (match q.dog_ids_includes_all with
    | some ids => ids.all (fun i => r.dogs.contains i) | none => true) &&
  (match q.accepted_by with | some u => r.accepted_by == some u | none => true) &&
  (match q.accepted_by_neq with | some u => r.accepted_by != some u | none => true) &&
  (match q.accepted_by_is_null with
    | some b => if b then r.accepted_by == none else r.accepted_by != none
    | none => true) &&
  (match q.acceptances_includes_all with
    | some ids => ids.all (fun i => r.acceptances.contains i) | none => true) &&
  (match q.acceptances_includes_any with
    | some ids => r.acceptances.any (fun a => ids.contains a) | none => true) &&
  (match q.created_by with | some u => r.created_by == u | none => true)

/-- Values of the BSON documents the coordinator builds. -/
inductive BVal where
  | str : String → BVal
  | num : F64 → BVal
  | time : Nat → BVal
  | bool : Bool → BVal
  | arr : List BVal → BVal
  | doc : List (String × BVal) → BVal
  | null : BVal
deriving Repr

/-- A BSON document: an ordered key-value list. -/
abbrev BDoc := List (String × BVal)

/-- Model of the bson crate Document insert: replace the value in place when
the key is already present, append otherwise. -/
def insertD : BDoc → String → BVal → BDoc
  | [], k, v => [(k, v)]
  | (k0, v0) :: rest, k, v =>
    if k0 = k then (k, v) :: rest else (k0, v0) :: insertD rest k v

/-- mongodb.rs `From<WalkRequestUpdate> for Document`, arm for arm in source
order.  Faithful quirks: the result always carries all three operators
`$set`, `$unset` and `$pull` — empty subdocuments included;
`add_to_acceptances` inserts the key `$addToSet` into the `$set`
subdocument instead of emitting a top-level `$addToSet` operator; and there
is no arm for `canceled_at` at all. -/
def walkRequestUpdateToDocument (update : WalkRequestUpdate) : BDoc :=
  let set : BDoc := []
  let set := match update.dogs with
    | some dogs => insertD set "dogs" (.arr (dogs.map .str)) | none => set
  let set := match update.accepted_by with
    | some u => insertD set "accepted_by" (.str u) | none => set
  let set := match update.accepted_at with
    | some t => insertD set "accepted_at" (.time t) | none => set
  let set := match update.latitude with
    | some v => insertD set "latitude" (.num v) | none => set
  let set := match update.longitude with
    | some v => insertD set "longitude" (.num v) | none => set
  let set := match update.should_start_after with
    | some t => insertD set "should_start_after" (.time t) | none => set
  let set := match update.should_start_before with
    | some t => insertD set "should_start_before" (.time t) | none => set
  let set := match update.should_end_before with
    | some t => insertD set "should_end_before" (.time t) | none => set
  let set := match update.should_end_after with
    | some t => insertD set "should_end_after" (.time t) | none => set
  let set := match update.add_to_acceptances with
    | some w => insertD set "$addToSet" (.doc [("acceptances", .str w)])
    | none => set
  let set := match update.started_at with
    | some t => insertD set "started_at" (.time t) | none => set
  let set := match update.finished_at with
    | some t => insertD set "finished_at" (.time t) | none => set
  let pull : BDoc := []
  let pull := match update.remove_from_acceptances with
    | some w => insertD pull "acceptances" (.str w) | none => pull
  let unset : BDoc := []
  let unset := if update.unset_accepted_by then insertD unset "accepted_by" (.str "") else unset
  let unset := if update.unset_accepted_at then insertD unset "accepted_at" (.str "") else unset
  [("$set", .doc set), ("$unset", .doc unset), ("$pull", .doc pull)]

/-- Whether a field path begins with a dollar sign. -/
def dollarPrefixed (k : String) : Bool :=
  match k.data with
  | [] => false
  | c :: _ => c = '$'

/-- Error raised by the Mongo server when an update document tries to write
through a field path that begins with a dollar sign, as the `$addToSet` key
that `From<WalkRequestUpdate>` nests inside `$set` does. -/
def dollarFieldErr : String :=
  "dollar-prefixed field name in an update operator is not valid for storage"

/-- FailedToParse error the Mongo server raises for an update document whose
top-level operator subdocument is empty. -/
def emptyOperatorErr (op : String) : String :=
  "FailedToParse: " ++ op ++ " is empty, you must specify a field"

/-- Server-side parse validation of a classic update document, run before
any document is matched or modified: the top-level operators are processed
in document order, an empty operator subdocument is rejected with
FailedToParse, and an operator carrying a dollar-prefixed field path is
rejected as not valid for storage. -/
def updateDocParseError : BDoc → Option String
  | [] => none
  | (op, BVal.doc d) :: rest =>
    if d.isEmpty then some (emptyOperatorErr op)
    else if d.any (fun kv => dollarPrefixed kv.1) then some dollarFieldErr
    else updateDocParseError rest
  | _ :: rest => updateDocParseError rest

/-- Parse outcome of the update document a `WalkRequestUpdate` translates
to; `none` means the document is accepted.  The translation emits all three
operators unconditionally, so every update the coordinator verbs build
carries at least one empty operator and is rejected. -/
def updateParseError (u : WalkRequestUpdate) : Option String :=
  updateDocParseError (walkRequestUpdateToDocument u)

/-- Field-level effect on one stored document of an update document the
server accepted: the `$set` entries in source order, then `$unset` of the
two accepted fields, then `$pull` from `acceptances`.  Note two faithful
quirks of the translation: `canceled_at` is never inserted into the
document at all (the `From` impl has no arm for it), and `latitude` /
`longitude` are written as top-level fields (the projection reads
`location.coordinates`, but no verified property reads them back).  The
coordinator never combines a `$set` and a `$unset` of the same field, so
the unset flags simply win here. -/
def applyUpdateFields (u : WalkRequestUpdate) (r : WalkRequest) : WalkRequest :=
  { r with
    dogs := u.dogs.getD r.dogs
    accepted_by := if u.unset_accepted_by then none else u.accepted_by.or r.accepted_by
    accepted_at := if u.unset_accepted_at then none else u.accepted_at.or r.accepted_at
    latitude := u.latitude.getD r.latitude
    longitude := u.longitude.getD r.longitude
    should_start_after := u.should_start_after.or r.should_start_after
    should_start_before := u.should_start_before.or r.should_start_before
    should_end_before := u.should_end_before.or r.should_end_before
    should_end_after := u.should_end_after.or r.should_end_after
    started_at := u.started_at.or r.started_at
    finished_at := u.finished_at.or r.finished_at
    acceptances :=
      match u.remove_from_acceptances with
      | some w => r.acceptances.filter (fun a => a ≠ w)
      | none => r.acceptances }

/-- Serialized semantics of `find_one_and_update` with
`ReturnDocument::After` for an accepted update document: the first matching
document is updated and the post-mutation document returned; zero matches
yield Mongo `None`, which `update_walk_request_by_query` turns into the
conflict error.  The second component is the collection afterwards. -/
def findOneAndUpdate (q : WalkRequestQuery) (u : WalkRequestUpdate) :
    List WalkRequest → Except String WalkRequest × List WalkRequest
  | [] => (.error "代遛请求不存在", [])
  | r :: rest =>
    if matchesQuery q r then
      (.ok (applyUpdateFields u r), applyUpdateFields u r :: rest)
    else
      let res := findOneAndUpdate q u rest
      (res.1, r :: res.2)

/-- Serialized semantics of `update_many` for an accepted update document:
every matching document is updated, and the first component is
`modified_count` — Mongo counts only the documents the update actually
changed. -/
def updateMany (q : WalkRequestQuery) (u : WalkRequestUpdate) :
    List WalkRequest → Nat × List WalkRequest
  | [] => (0, [])
  | r :: rest =>
    let res := updateMany q u rest
    if matchesQuery q r then
      let r2 := applyUpdateFields u r
      ((if r2 = r then 0 else 1) + res.1, r2 :: res.2)
    else
      (res.1, r :: res.2)

/-- mongodb.rs `MongoDB::update_walk_request_by_query`: the server first
parses the update document (`updateParseError`); a rejected document
modifies nothing and the server error is propagated through
`Error::from_error`; an accepted one runs `find_one_and_update`. -/
def update_walk_request_by_query (q : WalkRequestQuery) (u : WalkRequestUpdate)
    (db : List WalkRequest) : Except String WalkRequest × List WalkRequest :=
  match updateParseError u with
  | some e => (.error e, db)
  | none => findOneAndUpdate q u db

/-- mongodb.rs `MongoDB::update_walk_requests_by_query`, with the same
server-side parse step before `update_many`. -/
def update_walk_requests_by_query (q : WalkRequestQuery) (u : WalkRequestUpdate)
    (db : List WalkRequest) : Except String Nat × List WalkRequest :=
  match updateParseError u with
  | some e => (.error e, db)
  | none =>
    let res := updateMany q u db
    (.ok res.1, res.2)

/-- service.rs `Service::accept`: claim an unclaimed request. -/
def accept (request_id user_id : String) (now : Nat) (db : List WalkRequest) :
    Except String WalkRequest × List WalkRequest :=
  update_walk_request_by_query
    { id := some request_id, accepted_by_is_null := some true }
    { accepted_by := some user_id, accepted_at := some now } db

/-- service.rs `Service::remove_acceptance`: withdraw a bid. -/
def remove_acceptance (request_id user_id : String) (db : List WalkRequest) :
    Except String Unit × List WalkRequest :=
  let res := update_walk_requests_by_query
    { id := some request_id, accepted_by_neq := some user_id }
    { remove_from_acceptances := some user_id } db
  match res.1 with
  | .error e => (.error e, res.2)
  | .ok n =>
    (if n = 1 then .ok () else .error "请求不存在或狗狗主人已通过请求", res.2)

/-- service.rs `Service::assign_accepter`: owner assigns a walker from the
bid pool. -/
def assign_accepter (request_id user_id : String) (now : Nat) (db : List WalkRequest) :
    Except String Unit × List WalkRequest :=
  let res := update_walk_requests_by_query
    { id := some request_id, accepted_by_is_null := some true,
      acceptances_includes_all := some [user_id] }
    { accepted_by := some user_id, accepted_at := some now } db
  match res.1 with
  | .error e => (.error e, res.2)
  | .ok n =>
    (if n = 1 then .ok () else .error "请求不存在或该用户已取消报名", res.2)

/-- service.rs `Service::dismiss_accepter`: owner vacates the current claim. -/
def dismiss_accepter (request_id user_id : String) (db : List WalkRequest) :
    Except String Unit × List WalkRequest :=
  let res := update_walk_requests_by_query
    { id := some request_id, accepted_by := some user_id }
    { unset_accepted_by := true, unset_accepted_at := true } db
  match res.1 with
  | .error e => (.error e, res.2)
  | .ok n =>
    (if n = 1 then .ok () else .error "请求不存在或该用户已取消报名", res.2)

/-- service.rs `Service::cancel_unaccepted_request`. -/
def cancel_unaccepted_request (request_id : String) (now : Nat) (db : List WalkRequest) :
    Except String Unit × List WalkRequest :=
  let res := update_walk_requests_by_query
    { id := some request_id, accepted_by_is_null := some true }
    { canceled_at := some now } db
  match res.1 with
  | .error e => (.error e, res.2)
  | .ok n =>
    (if n = 1 then .ok () else .error "请求不存在", res.2)

/-- service.rs `Service::cancel_accepted_request`. -/
def cancel_accepted_request (request_id user_id : String) (now : Nat) (db : List WalkRequest) :
    Except String Unit × List WalkRequest :=
  let res := update_walk_requests_by_query
    { id := some request_id, accepted_by := some user_id }
    { canceled_at := some now } db
  match res.1 with
  | .error e => (.error e, res.2)
  | .ok n =>
    (if n = 1 then .ok () else .error "请求不存在", res.2)

/-- service.rs `Service::resign_acceptance`: the accepted walker resigns. -/
def resign_acceptance (request_id user_id : String) (db : List WalkRequest) :
    Except String Unit × List WalkRequest :=
  let res := update_walk_requests_by_query
    { id := some request_id, accepted_by := some user_id }
    { unset_accepted_by := true, unset_accepted_at := true,
      remove_from_acceptances := some user_id } db
  match res.1 with
  | .error e => (.error e, res.2)
  | .ok n =>
    (if n = 1 then .ok () else .error "请求不存在或已被狗狗主人取消", res.2)

/-- service.rs `Service::start_walk`. -/
def start_walk (request_id user_id : String) (now : Nat) (db : List WalkRequest) :
    Except String WalkRequest × List WalkRequest :=
  update_walk_request_by_query
    { id := some request_id, accepted_by := some user_id }
    { started_at := some now } db

/-- service.rs `Service::finish_walk`. -/
def finish_walk (request_id user_id : String) (now : Nat) (db : List WalkRequest) :
    Except String WalkRequest × List WalkRequest :=
  update_walk_request_by_query
    { id := some request_id, accepted_by := some user_id }
    { finished_at := some now } db

/-- Derived status, computed on read and never stored: the `$switch` of
`WalkRequest::projection` (mongodb.rs) testing the timestamps for
non-null in source order. -/
def deriveStatus (r : WalkRequest) : String :=
  if r.canceled_at.isSome then "Canceled"
  else if r.accepted_at.isSome then "Accepted"
  else if r.started_at.isSome then "Started"
  else if r.finished_at.isSome then "Finished"
  else "Waiting"

/-- The `$geoNear` pipeline stage built by the `nearby` arm of
`TryFrom<WalkRequestQuery> for Document` (mongodb.rs), wrapping the filter
terms accumulated so far as its `query`. -/
def geoNearDoc (a b c : F64) (q : BDoc) : BDoc :=
  [("$geoNear", .doc [
    ("near", .doc [("type", .str "Point"), ("coordinates", .arr [.num a, .num b])]),
    ("distanceField", .str "distance"),
    ("maxDistance", .num c),
    ("spherical", .bool true),
    ("query", .doc q),
    ("includeLocs", .str "location")])]

/-- Filter terms of `TryFrom<WalkRequestQuery> for Document` (mongodb.rs)
inserted before the `nearby` arm, key for key in source order. -/
def baseFilterDoc (value : WalkRequestQuery) : BDoc :=
  let q : BDoc := []
  let q := match value.id with
    | some i => insertD q "_id" (.str i) | none => q
  let q := match value.dog_ids_includes_any with
    | some ids =>
      insertD q "dogs.id" (.doc [("$elemMatch", .doc [("$in", .arr (ids.map .str))])])
    | none => q
  let q := match value.dog_ids_includes_all with
    | some ids => insertD q "dogs.id" (.doc [("$all", .arr (ids.map .str))])
    | none => q
  let q := match value.accepted_by with
    | some u => insertD q "accepted_by" (.str u) | none => q
  let q := match value.accepted_by_neq with
    | some u => insertD q "accepted_by" (.doc [("$ne", .str u)]) | none => q
  let q := match value.accepted_by_is_null with
    | some b =>
      if b then insertD q "accepted_by" (.doc [("$eq", BVal.null)])
      else insertD q "accepted_by" (.doc [("$neq", BVal.null)])
    | none => q
  let q := match value.acceptances_includes_all with
    | some ids => insertD q "acceptances" (.doc [("$all", .arr (ids.map .str))])
    | none => q
  let q := match value.acceptances_includes_any with
    | some ids =>
      insertD q "acceptances" (.doc [("$elemMatch", .doc [("$in", .arr (ids.map .str))])])
    | none => q
  q

/-- mongodb.rs `TryFrom<WalkRequestQuery> for Document`.  When `nearby` is
present the function returns early: the length-3 validation runs and the
`created_by` filter below the early return is never inserted. -/
def walkRequestQueryToDocument (value : WalkRequestQuery) : Except String BDoc :=
  let q := baseFilterDoc value
  match value.nearby with
  | some nb =>
    match nb with
    | [a, b, c] => .ok (geoNearDoc a b c q)
    | _ => .error "Invalid nearby query, expect [f64;3]"
  | none =>
    let q := match value.created_by with
      | some u => insertD q "created_by" (.str u) | none => q
    .ok q

/-- Sort key used by the backend for the single-field sort: the only field
the coordinator ever sorts by is `created_at` (via the derived
`WalkRequest::created_at()` field name).  A missing date sorts after every
present date in a descending sort, modelled by key `0`. -/
def createdKey (r : WalkRequest) : Nat :=
  match r.created_at with
  | some t => t + 1
  | none => 0

/-- Stable insertion for a descending single-field sort. -/
def insertDesc (key : WalkRequest → Nat) (x : WalkRequest) :
    List WalkRequest → List WalkRequest
  | [] => [x]
  | y :: rest =>
    if key y < key x then x :: y :: rest else y :: insertDesc key x rest

/-- Stable insertion for an ascending single-field sort. -/
def insertAsc (key : WalkRequest → Nat) (x : WalkRequest) :
    List WalkRequest → List WalkRequest
  | [] => [x]
  | y :: rest =>
    if key x < key y then x :: y :: rest else y :: insertAsc key x rest

/-- Backend single-field sort over `created_at` (the only sort key the
coordinator uses); any other field name leaves the find order unchanged. -/
def sortWalkRequests (s : Option SortBy) (l : List WalkRequest) : List WalkRequest :=
  match s with
  | none => l
  | some s =>
    if s.field = "created_at" then
      match s.order with
      | .Desc => l.foldr (insertDesc createdKey) []
      | .Asc => l.foldr (insertAsc createdKey) []
    else l

/-- Proximity acceptance test of the `$geoNear` stage.  The backend computes
a spherical distance (a capability of the persistence backend, out of scope
for the core per spec section 1); it is modelled as the squared planar
distance against a squared radius.  No verified property depends on which
records a valid proximity clause selects. -/
def geoNearAccepts (a b c : F64) (r : WalkRequest) : Bool :=
  (r.longitude - a) ^ 2 + (r.latitude - b) ^ 2 ≤ c ^ 2

/-- mongodb.rs `MongoDB::query_walk_requests`.  Both branches first translate
the query (`Document::try_from(query)?`), so a validation failure is
returned before anything runs against the collection.  The `nearby` branch
builds an aggregation pipeline: `$geoNear` (whose inner query drops
`created_by`, see `walkRequestQueryToDocument`) annotating each record with
its distance, then `$skip pagination.skip` and `$limit pagination.limit`,
and then — last, after the limit — the `$sort` stage.  The find branch feeds
`pagination.limit` to both `limit` and `skip` (mongodb.rs line 401), and the
server applies sort before skip and limit there. -/
def query_walk_requests (q : WalkRequestQuery) (sort_by : Option SortBy)
    (pagination : Option Pagination) (db : List WalkRequest) :
    Except String (List WalkRequest) :=
  match walkRequestQueryToDocument q with
  | .error e => .error e
  | .ok _ =>
    match q.nearby with
    | some nb =>
      match nb with
      | [a, b, c] =>
        let matched := (db.filter (fun r =>
          geoNearAccepts a b c r && matchesQuery { q with created_by := none } r)).map
            (fun r => { r with distance := some ((r.longitude - a) ^ 2 + (r.latitude - b) ^ 2) })
        let paged := match pagination with
          | some p => (matched.drop p.skip.toNat).take p.limit.toNat
          | none => matched
        .ok (sortWalkRequests sort_by paged)
      | _ => .error "Invalid nearby query, expect [f64;3]"
    | none =>
      let sorted := sortWalkRequests sort_by (db.filter (matchesQuery q))
      .ok (match pagination with
        | some p => (sorted.drop p.limit.toNat).take p.limit.toNat
        | none => sorted)

/-- service.rs `Service::nearby_walk_requests`. -/
def nearby_walk_requests (latitute longitude radius : F64) (pagination : Pagination)
    (db : List WalkRequest) : Except String (List WalkRequest) :=
  query_walk_requests
    { accepted_by_is_null := some true, nearby := some [longitude, latitute, radius] }
    none (some pagination) db

/-- service.rs `Service::my_walk_requests`. -/
def my_walk_requests (user_id : String) (pagination : Pagination)
    (db : List WalkRequest) : Except String (List WalkRequest) :=
  query_walk_requests
    { created_by := some user_id }
    (some { field := "created_at", order := .Desc })
    (some pagination) db

/-- Spec section 3 invariant: `accepted_at` is set iff `accepted_by` is set. -/
abbrev accInv (r : WalkRequest) : Prop :=
  r.accepted_at.isSome = r.accepted_by.isSome

/-- The join-bid-pool mutation of the verb table (spec section 4.2): an
update whose only payload is `add_to_acceptances` for the joining walker. -/
def joinBidPoolUpdate (user_id : String) : WalkRequestUpdate :=
  { add_to_acceptances := some user_id }

/-- Three requests by one owner with increasing creation instants, used to
exercise the owner-listing pagination. -/
def dbPagingDemo : List WalkRequest :=
  [{ id := "a", created_by := "u", created_at := some 1 },
   { id := "b", created_by := "u", created_at := some 2 },
   { id := "c", created_by := "u", created_at := some 3 }]

theorem baseFilterDoc_erase (q : WalkRequestQuery) :
    baseFilterDoc { q with nearby := none, created_by := none } = baseFilterDoc q := rfl

/-- C1 evaluation at the failing input: a claim against a single unclaimed
request with the right id never succeeds — the update document accept emits
carries `accepted_by` and `accepted_at` under `$set` but also an empty
`$unset` and an empty `$pull`, so the server rejects it (FailedToParse)
before matching anything: nothing is assigned, the collection is unchanged,
and the caller gets the server error rather than the conflict error the
claim describes for a lost race. -/
theorem accept_rejected_bug :
    walkRequestUpdateToDocument { accepted_by := some "w", accepted_at := some 9 } =
      [("$set", .doc [("accepted_by", .str "w"), ("accepted_at", .time 9)]),
       ("$unset", .doc []), ("$pull", .doc [])]
  ∧ accept "a" "w" 9 [{ id := "a" }] =
      (.error (emptyOperatorErr "$unset"), [{ id := "a" }])
  ∧ ({ id := "a" } : WalkRequest).accepted_by = none
  ∧ emptyOperatorErr "$unset" ≠ "代遛请求不存在" :=
  ⟨rfl, rfl, rfl, by decide⟩

/-- Counterexample to C2 as stated: a lifecycle verb run against a canceled
request does fail, but with the server FailedToParse rejection of its
update document, not with a precondition-failure error — the claimed error
kind is wrong, and the failure has nothing to do with `canceled_at`. -/
theorem canceled_wrong_error_cex :
    ({ id := "a", canceled_at := some 5 } : WalkRequest).canceled_at.isSome = true
  ∧ (accept "a" "w" 9 [{ id := "a", canceled_at := some 5 }]).1 =
      .error (emptyOperatorErr "$unset")
  ∧ emptyOperatorErr "$unset" ≠ "代遛请求不存在" :=
  ⟨rfl, rfl, by decide⟩

/-- C2 amended: once `canceled_at` is set, every subsequent lifecycle verb
against that id does fail and leaves the stored request unchanged — but
with the server FailedToParse rejection of the verb's update document
(every coordinator update document carries an empty operator), not with a
precondition-failure error; the failure is independent of the cancellation,
since no verb precondition tests `canceled_at` and no update document is
ever accepted. -/
theorem canceled_terminal_by_rejection (rid uid : String) (now : Nat)
    (db : List WalkRequest) (r : WalkRequest) (_hr : r ∈ db)
    (_hc : r.canceled_at.isSome = true) :
    accept rid uid now db = (.error (emptyOperatorErr "$unset"), db)
  ∧ assign_accepter rid uid now db = (.error (emptyOperatorErr "$unset"), db)
  ∧ dismiss_accepter rid uid db = (.error (emptyOperatorErr "$set"), db)
  ∧ resign_acceptance rid uid db = (.error (emptyOperatorErr "$set"), db)
  ∧ start_walk rid uid now db = (.error (emptyOperatorErr "$unset"), db)
  ∧ finish_walk rid uid now db = (.error (emptyOperatorErr "$unset"), db)
  ∧ cancel_unaccepted_request rid now db = (.error (emptyOperatorErr "$set"), db)
  ∧ cancel_accepted_request rid uid now db = (.error (emptyOperatorErr "$set"), db) :=
  ⟨rfl, rfl, rfl, rfl, rfl, rfl, rfl, rfl⟩

/-- Witness for C2 at a concrete canceled request: the claim attempt fails
with the parse rejection and the collection is unchanged. -/
theorem canceled_terminal_by_rejection_witness :
    accept "a" "w" 9 [{ id := "a", canceled_at := some 5 }] =
      (.error (emptyOperatorErr "$unset"), [{ id := "a", canceled_at := some 5 }]) :=
  (canceled_terminal_by_rejection "a" "w" 9 [{ id := "a", canceled_at := some 5 }]
    { id := "a", canceled_at := some 5 } (by decide) rfl).1

/-- C3: the derived status of a request — computed on read by the
projection, never stored — is the first match in the strict priority order
Canceled > Accepted > Started > Finished > Waiting over the null-tests of
the four lifecycle timestamps; consequently a request with `accepted_at`
set and `canceled_at` unset reads Accepted even when `started_at` or
`finished_at` is also set. -/
theorem status_priority (r : WalkRequest) :
    (r.canceled_at.isSome → deriveStatus r = "Canceled")
  ∧ (r.canceled_at = none → r.accepted_at.isSome → deriveStatus r = "Accepted")
  ∧ (r.canceled_at = none → r.accepted_at = none → r.started_at.isSome →
      deriveStatus r = "Started")
  ∧ (r.canceled_at = none → r.accepted_at = none → r.started_at = none →
      r.finished_at.isSome → deriveStatus r = "Finished")
  ∧ (r.canceled_at = none → r.accepted_at = none → r.started_at = none →
      r.finished_at = none → deriveStatus r = "Waiting") := by
  unfold deriveStatus
  refine ⟨?_, ?_, ?_, ?_, ?_⟩ <;> intros <;> simp_all

/-- Witness for C3 at a request whose accepted, started and finished stamps
are all present: the status still reads Accepted. -/
theorem status_priority_witness :
    deriveStatus
      { id := "a", accepted_at := some 1, started_at := some 2,
        finished_at := some 3 } = "Accepted" :=
  (status_priority
    { id := "a", accepted_at := some 1, started_at := some 2,
      finished_at := some 3 }).2.1 rfl rfl

/-- Counterexample to C4 as stated: accept does not set `accepted_by` and
`accepted_at` together — its update document is rejected by the server
(empty `$unset`), so the claim attempt errors and the stored request keeps
both fields unset. -/
theorem accepted_fields_never_set_cex :
    (accept "a" "w" 3 [{ id := "a" }]).1 = .error (emptyOperatorErr "$unset")
  ∧ (accept "a" "w" 3 [{ id := "a" }]).2 = [{ id := "a" }]
  ∧ ({ id := "a" } : WalkRequest).accepted_by = none
  ∧ ({ id := "a" } : WalkRequest).accepted_at = none :=
  ⟨rfl, rfl, rfl, rfl⟩

/-- C4 amended: every lifecycle operation preserves the invariant that
`accepted_at` is set iff `accepted_by` is set — trivially so: every verb's
update document carries an empty operator and is rejected by the server, so
no verb ever touches either field (the claimed set-both and unset-both
mutations never execute) and the stored collection is returned unchanged. -/
theorem accepted_fields_inv (rid uid : String) (now : Nat) (db : List WalkRequest)
    (hdb : ∀ r ∈ db, accInv r) :
    (∀ x ∈ (accept rid uid now db).2, accInv x)
  ∧ (∀ x ∈ (assign_accepter rid uid now db).2, accInv x)
  ∧ (∀ x ∈ (dismiss_accepter rid uid db).2, accInv x)
  ∧ (∀ x ∈ (resign_acceptance rid uid db).2, accInv x)
  ∧ (∀ x ∈ (remove_acceptance rid uid db).2, accInv x)
  ∧ (∀ x ∈ (cancel_unaccepted_request rid now db).2, accInv x)
  ∧ (∀ x ∈ (cancel_accepted_request rid uid now db).2, accInv x)
  ∧ (∀ x ∈ (start_walk rid uid now db).2, accInv x)
  ∧ (∀ x ∈ (finish_walk rid uid now db).2, accInv x) :=
  ⟨fun x hx => hdb x hx, fun x hx => hdb x hx, fun x hx => hdb x hx,
   fun x hx => hdb x hx, fun x hx => hdb x hx, fun x hx => hdb x hx,
   fun x hx => hdb x hx, fun x hx => hdb x hx, fun x hx => hdb x hx⟩

/-- Witness for C4: after a concrete claim attempt the stored request — left
untouched by the rejected update — still satisfies the invariant. -/
theorem accepted_fields_inv_witness :
    accInv { id := "a" } :=
  (accepted_fields_inv "a" "w" 3 [{ id := "a" }] (by decide)).1
    { id := "a" } (by decide)

/-- C5 evaluation at the failing input: assigning a walker who is in the bid
pool of an unclaimed request does not succeed — the update document carries
an empty `$unset` and an empty `$pull`, so the server rejects it
(FailedToParse): the verb returns the server error (never the success, and
never even the distinct precondition string) and assigns nothing. -/
theorem assign_accepter_rejected_bug :
    assign_accepter "a" "x" 7 [{ id := "a", acceptances := ["x", "y"] }] =
      (.error (emptyOperatorErr "$unset"), [{ id := "a", acceptances := ["x", "y"] }])
  ∧ "x" ∈ ({ id := "a", acceptances := ["x", "y"] } : WalkRequest).acceptances
  ∧ ({ id := "a", acceptances := ["x", "y"] } : WalkRequest).accepted_by = none
  ∧ emptyOperatorErr "$unset" ≠ "请求不存在或该用户已取消报名" :=
  ⟨rfl, by decide, rfl, by decide⟩

/-- Counterexample to C6 as stated: the request exists and its `accepted_by`
is not the withdrawing walker (who is even in the bid pool), yet withdrawal
does not succeed — the verb returns the server parse rejection and the pool
is unchanged. -/
theorem remove_acceptance_never_ok_cex :
    ({ id := "a", acceptances := ["w"] } : WalkRequest).accepted_by ≠ some "w"
  ∧ "w" ∈ ({ id := "a", acceptances := ["w"] } : WalkRequest).acceptances
  ∧ (remove_acceptance "a" "w" [{ id := "a", acceptances := ["w"] }]).1 =
      .error (emptyOperatorErr "$set")
  ∧ (remove_acceptance "a" "w" [{ id := "a", acceptances := ["w"] }]).2 =
      [{ id := "a", acceptances := ["w"] }] :=
  ⟨fun h => Option.noConfusion h, by decide, rfl, rfl⟩

/-- C6 amended: withdraw-bid never succeeds and never returns the distinct
request-absent-or-confirmed failure: its update document consists of an
empty `$set`, an empty `$unset` and the `$pull` of the walker, so the
server rejects it (FailedToParse on the empty `$set`) before matching; the
verb always returns that server error and the collection — hence every bid
pool — is unchanged. -/
theorem remove_acceptance_always_rejected (rid uid : String) (db : List WalkRequest) :
    remove_acceptance rid uid db = (.error (emptyOperatorErr "$set"), db)
  ∧ (remove_acceptance rid uid db).1 ≠ .ok ()
  ∧ (remove_acceptance rid uid db).1 ≠ .error "请求不存在或狗狗主人已通过请求" :=
  ⟨rfl, fun h => Except.noConfusion h,
   fun h => absurd (Except.error.inj h) (by decide)⟩

/-- C7 evaluation at the failing input: the join-bid-pool mutation
translates to a document whose `$set` subdocument carries the literal key
`$addToSet` (no top-level `$addToSet` operator exists in the document), so
the server rejects the update as a whole: a join attempt against a matching
request errors out and the collection — hence `acceptances` — is untouched;
the walker is not added even once, let alone idempotently. -/
theorem join_bid_pool_dollar_set_bug :
    walkRequestUpdateToDocument (joinBidPoolUpdate "w") =
      [("$set", .doc [("$addToSet", .doc [("acceptances", .str "w")])]),
       ("$unset", .doc []), ("$pull", .doc [])]
  ∧ (walkRequestUpdateToDocument (joinBidPoolUpdate "w")).lookup "$addToSet" = none
  ∧ update_walk_request_by_query { id := some "a" } (joinBidPoolUpdate "w")
      [{ id := "a" }] = (.error dollarFieldErr, [{ id := "a" }])
  ∧ ({ id := "a" } : WalkRequest).acceptances = [] :=
  ⟨rfl, rfl, rfl, rfl⟩

/-- C8 evaluation at the failing input: listing the three requests of owner
"u" with skip 0 and limit 2 should return the two newest requests in
descending creation order, but the find path feeds `pagination.limit` to the
skip option, so the two newest are skipped and only the oldest request comes
back. -/
theorem my_walk_requests_skip_bug :
    my_walk_requests "u" { limit := 2, skip := 0 } dbPagingDemo =
      .ok [{ id := "a", created_by := "u", created_at := some 1 }]
  ∧ my_walk_requests "u" { limit := 2, skip := 0 } dbPagingDemo ≠
      .ok [{ id := "c", created_by := "u", created_at := some 3 },
           { id := "b", created_by := "u", created_at := some 2 }] := by
  have h1 : my_walk_requests "u" { limit := 2, skip := 0 } dbPagingDemo =
      .ok [{ id := "a", created_by := "u", created_at := some 1 }] := rfl
  refine ⟨h1, ?_⟩
  intro h
  rw [h1] at h
  exact absurd (Except.ok.inj h) (by decide)

/-- C9 amended: a `nearby` parameter that is not a three-element list makes
the query translation fail with the validation error, and
`query_walk_requests` returns that error for every collection, sort and
pagination (nothing is executed); a three-element `nearby` produces a
`$geoNear` stage whose inner query is the conjunction of the other filter
terms except `created_by`, which the early return drops. -/
theorem nearby_query_spec (q : WalkRequestQuery) (nb : List F64)
    (hq : q.nearby = some nb) :
    (nb.length ≠ 3 →
        walkRequestQueryToDocument q = .error "Invalid nearby query, expect [f64;3]"
      ∧ ∀ s p db, query_walk_requests q s p db =
          .error "Invalid nearby query, expect [f64;3]")
  ∧ (∀ a b c, nb = [a, b, c] →
        walkRequestQueryToDocument q = .ok (geoNearDoc a b c (baseFilterDoc q))
      ∧ walkRequestQueryToDocument { q with nearby := none, created_by := none } =
          .ok (baseFilterDoc q)) := by
  constructor
  · intro hlen
    have hdoc : walkRequestQueryToDocument q =
        .error "Invalid nearby query, expect [f64;3]" := by
      simp only [walkRequestQueryToDocument, hq]
      rcases nb with _ | ⟨a, _ | ⟨b, _ | ⟨c, _ | ⟨d, rest⟩⟩⟩⟩
      · rfl
      · rfl
      · rfl
      · exact absurd rfl hlen
      · rfl
    refine ⟨hdoc, fun s p db => ?_⟩
    simp only [query_walk_requests, hdoc]
  · rintro a b c rfl
    constructor
    · simp only [walkRequestQueryToDocument, hq]
    · rw [show walkRequestQueryToDocument { q with nearby := none, created_by := none } =
        .ok (baseFilterDoc { q with nearby := none, created_by := none }) from rfl,
        baseFilterDoc_erase]

/-- Witness for C9 at a two-element `nearby` parameter: translation fails
with the validation error. -/
theorem nearby_query_spec_witness :
    walkRequestQueryToDocument { nearby := some [0, 0] } =
      .error "Invalid nearby query, expect [f64;3]" :=
  ((nearby_query_spec { nearby := some [0, 0] } [0, 0] rfl).1 (by decide)).1

/-- Counterexample to C9 as stated: with a three-element `nearby` combined
with a `created_by` filter, the built predicate is a `$geoNear` whose inner
query is empty — the `created_by` term is not combined conjunctively, it is
dropped. -/
theorem nearby_drops_created_by_cex :
    walkRequestQueryToDocument { nearby := some [0, 0, 100], created_by := some "u" } =
      .ok (geoNearDoc 0 0 100 [])
  ∧ walkRequestQueryToDocument { nearby := none, created_by := some "u" } =
      .ok [("created_by", BVal.str "u")]
  ∧ ([] : BDoc) ≠ [("created_by", BVal.str "u")] :=
  ⟨rfl, rfl, fun h => List.noConfusion h⟩

/-- Counterexample to C10 as stated: against a request whose `accepted_by`
is the calling walker and whose `started_at` is unset, finish-walk does not
succeed (and start-walk does not overwrite anything): both verbs carry an
empty `$unset` and `$pull` in their update documents and are rejected by
the server. -/
theorem start_finish_never_succeed_cex :
    ({ id := "a", accepted_by := some "w" } : WalkRequest).accepted_by = some "w"
  ∧ ({ id := "a", accepted_by := some "w" } : WalkRequest).started_at = none
  ∧ (finish_walk "a" "w" 9 [{ id := "a", accepted_by := some "w" }]).1 =
      .error (emptyOperatorErr "$unset")
  ∧ (start_walk "a" "w" 9 [{ id := "a", accepted_by := some "w" }]).1 =
      .error (emptyOperatorErr "$unset") :=
  ⟨rfl, rfl, rfl, rfl⟩

/-- C10 amended: no verb enforces that a walk is started before it is
finished or started and finished at most once — the start and finish
predicates test only the id and `accepted_by` — but neither verb ever
stamps anything either: their update documents carry an empty `$unset` and
an empty `$pull` and the server rejects them (FailedToParse) for every
collection state, independent of the request's started or finished stamps,
so both verbs always return the server error with the collection
unchanged. -/
theorem start_finish_always_rejected (rid uid : String) (now : Nat)
    (db : List WalkRequest) :
    start_walk rid uid now db = (.error (emptyOperatorErr "$unset"), db)
  ∧ finish_walk rid uid now db = (.error (emptyOperatorErr "$unset"), db) :=
  ⟨rfl, rfl⟩

end LittleWalk
